import Mathlib

/-!
Shallow embedding of `static/js/main.js` of the globe-news frontend.

The file is UI glue: a language filter over rendered article cards, a search
form that renders results from a backend JSON response, a "fetch now"
trigger, a "load more" pagination control, a relative-time formatter and a
notification banner system.

Modelling conventions:
* DOM elements touched by the script become Lean structures holding exactly
  the fields the script reads or writes (`display`, `opacity`, `innerHTML`, ...).
* Template-literal HTML becomes explicit string concatenation in source
  order; insignificant indentation/newlines inside the templates are elided.
* `new Date(x)` values are represented by their millisecond epoch number;
  `date.toLocaleDateString()` is an environment-supplied rendering function
  `localeDateOf : Int → String` passed explicitly.
* Event handlers become functions from the relevant prior state plus the
  network outcome to the new state and/or a list of `UiEffect`s, in the
  order the script performs them.
* `document.querySelectorAll` at `DOMContentLoaded` returns a static
  NodeList; the cards it captured are kept separate from cards appended to
  the DOM later (`snapshotCards` vs `appendedCards`).
-/

namespace GlobeNews

/-! ## String utilities -/

/-- Substring containment on strings, via list-of-characters infixes. -/
def strContains (hay needle : String) : Bool := decide (needle.data <:+: hay.data)

/-- JS `x || dflt` for a string-valued `x` that may be `null`/`undefined`
(`none`) or empty (falsy). -/
def jsOr (x : Option String) (dflt : String) : String :=
  match x with
  | some s => if s.isEmpty then dflt else s
  | none => dflt

/-- JS `String.prototype.trim()`: strip whitespace from both ends. -/
def jsTrim (s : String) : String :=
  ⟨((s.data.dropWhile Char.isWhitespace).reverse.dropWhile Char.isWhitespace).reverse⟩

/-- JS `String.prototype.toUpperCase()` (ASCII, as used on `en`/`rw`). -/
def jsToUpper (s : String) : String := ⟨s.data.map Char.toUpper⟩

/-- JS truthiness of a possibly-missing string value. -/
def jsTruthyStr (x : Option String) : Bool :=
  match x with
  | some s => !s.isEmpty
  | none => false

/-! ## Configuration constants (main.js lines 1-3) -/

def BACKEND_URL : String := "http://localhost:8000"

def FRONTEND_URL : String := "http://localhost:5000"

/-! ## Article data model (spec section 3: the view projection read by main.js) -/

structure Article where
  id : String
  title : String
  description : Option String
  source : String
  category_name : String
  language : String
  published_at : Int
  url_to_image : Option String
deriving DecidableEq, Repr

/-! ## Relative time formatting (main.js lines 388-405) -/

/-- Embedding of `formatTimeAgo`. `nowMs` is `new Date()` and `dateMs` is
`new Date(dateString)`, both as millisecond epoch values; `localeDateOf`
models `date.toLocaleDateString()`. `Math.floor` on integer quotients is
`Int.fdiv`. -/
def formatTimeAgo (localeDateOf : Int → String) (nowMs dateMs : Int) : String :=
  let seconds : Int := (nowMs - dateMs).fdiv 1000
  if seconds < 60 then "just now"
  else
    let minutes : Int := seconds.fdiv 60
    if minutes < 60 then toString minutes ++ "m ago"
    else
      let hours : Int := minutes.fdiv 60
      if hours < 24 then toString hours ++ "h ago"
      else
        let days : Int := hours.fdiv 24
        if days < 7 then toString days ++ "d ago"
        else localeDateOf dateMs

/-! ## Article card construction (main.js lines 339-383) -/

/-- The fallback image URL used when `article.url_to_image` is falsy. -/
def articleImagePlaceholder : String :=
  "https://images.unsplash.com/photo-1588681664899-f142ff2dc9b1?ixlib=rb-4.0.3&auto=format&fit=crop&w=500&q=60"

/-- The `div` element built by `createArticleCard`: the three fields the
function assigns (`className`, `dataset.language`, `innerHTML`). -/
structure CardElement where
  className : String
  dataLanguage : String
  innerHTML : String
deriving DecidableEq, Repr

/-- The `innerHTML` template of `createArticleCard` (lines 347-380),
reproduced as concatenation in source order (whitespace-only indentation
elided); `article.language.toUpperCase()` is `jsToUpper`;
`description.substring(0, 150)` is `String.take 150`. -/
def articleCardHtml (localeDateOf : Int → String) (nowMs : Int) (article : Article) : String :=
  let languageBadge : String :=
    if article.language = "en" then "<span class=\"language-en\">English</span>"
    else "<span class=\"language-rw\">Kinyarwanda</span>"
  "<div class=\"language-indicator "
  ++ (if article.language = "en" then "language-en-indicator" else "language-rw-indicator")
  ++ "\">"
  ++ jsToUpper article.language
  ++ "</div><img src=\""
  ++ jsOr article.url_to_image articleImagePlaceholder
  ++ "\" alt=\""
  ++ article.title
  ++ "\" class=\"article-image\"><div class=\"article-content\"><div class=\"article-meta\"><span class=\"article-category\">"
  ++ article.category_name
  ++ "</span><span class=\"article-source\">"
  ++ article.source
  ++ "</span><span class=\"article-time\">"
  ++ formatTimeAgo localeDateOf nowMs article.published_at
  ++ "</span></div><h3 class=\"article-title\"><a href=\""
  ++ FRONTEND_URL
  ++ "/article/"
  ++ article.id
  ++ "\">"
  ++ article.title
  ++ "</a></h3><p class=\"article-description\">"
  ++ (if jsTruthyStr article.description then
        (article.description.getD "").take 150 ++ "..."
      else "")
  ++ "</p><div class=\"article-footer\">"
  ++ languageBadge
  ++ "<a href=\""
  ++ FRONTEND_URL
  ++ "/article/"
  ++ article.id
  ++ "\" class=\"read-more\">Read More <i class=\"fas fa-arrow-right\"></i></a></div></div>"

/-- Embedding of `createArticleCard` (lines 339-383): the element's class,
its `data-language` attribute and the template html. -/
def createArticleCard (localeDateOf : Int → String) (nowMs : Int) (article : Article) :
    CardElement :=
  { className := "article-card"
    dataLanguage := article.language
    innerHTML := articleCardHtml localeDateOf nowMs article }

/-! ## Search result rendering (main.js lines 116-180) -/

/-- The `EN`/`RW` badge used in search results (lines 137-139), distinct
from the longer card badge. -/
def searchLanguageBadge (article : Article) : String :=
  if article.language = "en" then "<span class=\"language-en\">EN</span>"
  else "<span class=\"language-rw\">RW</span>"

/-- One `search-result-item` fragment appended per article (lines 141-158). -/
def renderSearchItem (localeDateOf : Int → String) (nowMs : Int) (article : Article) : String :=
  "<div class=\"search-result-item\"><div class=\"search-result-content\"><h4><a href=\""
  ++ FRONTEND_URL
  ++ "/article/"
  ++ article.id
  ++ "\">"
  ++ article.title
  ++ "</a></h4><p>"
  ++ jsOr article.description ""
  ++ "</p><div class=\"search-result-meta\">"
  ++ searchLanguageBadge article
  ++ "<span class=\"source\">"
  ++ article.source
  ++ "</span><span class=\"category\">"
  ++ article.category_name
  ++ "</span><span class=\"time\">"
  ++ formatTimeAgo localeDateOf nowMs article.published_at
  ++ "</span></div></div></div>"

/-- The heading placed before the result items (line 134). -/
def searchResultsHeader (query : String) (n : Nat) : String :=
  "<h3>Search Results for \"" ++ query ++ "\" (" ++ toString n ++ ")</h3>"

/-- The html assigned on a successful search with at least one article:
the heading followed by one fragment per article, accumulated in order
(lines 134-161). -/
def searchSuccessHtml (localeDateOf : Int → String) (nowMs : Int) (query : String)
    (articles : List Article) : String :=
  searchResultsHeader query articles.length
    ++ String.join (articles.map (renderSearchItem localeDateOf nowMs))

/-- The no-results placeholder (lines 164-170). -/
def searchNoResultsHtml (query : String) : String :=
  "<div class=\"no-results\"><i class=\"fas fa-search\"></i><h3>No results found for \""
  ++ query
  ++ "\"</h3><p>Try different keywords or browse by category.</p></div>"

/-- The `searchResults` container: the two fields the handler writes. -/
structure SearchResultsBox where
  innerHTML : String
  display : String
deriving DecidableEq, Repr

/-- Side effects a handler performs besides mutating the modelled state. -/
inductive UiEffect where
  | logError (tag : String)
  | notify (message ntype : String)
  | setLabel (html : String)
  | setDisabled (b : Bool)
  | postFetchNow
  | startCountdown (seconds : Nat)
deriving DecidableEq, Repr

/-- Outcome of the search round trip: `failure` covers a rejected `fetch`
or a `response.json()` parse error (both land in the `catch`); on success
`articles` is the `data.articles` field, `none` when absent/null. -/
inductive SearchOutcome where
  | failure
  | success (articles : Option (List Article))
deriving DecidableEq, Repr

/-- Embedding of the submit handler of `initializeSearch` (lines 122-178).
The raw input value is trimmed (`searchInput.value.trim()`, line 125); an
empty trimmed query returns without effect (line 126). On success the branch `data.articles &&
data.articles.length > 0` picks between the result list and the no-results
placeholder, both setting `display` to `block`; the `catch` branch logs and
notifies without touching the container. -/
def searchSubmitHandler (localeDateOf : Int → String) (nowMs : Int)
    (box : SearchResultsBox) (rawQuery : String) (outcome : SearchOutcome) :
    SearchResultsBox × List UiEffect :=
  let query := jsTrim rawQuery
  if query.isEmpty then (box, [])
  else
    match outcome with
    | .failure =>
        (box, [.logError "Search error:",
               .notify "Error performing search. Please try again." "error"])
    | .success arts =>
        match arts with
        | some as =>
            if 0 < as.length then
              ({ innerHTML := searchSuccessHtml localeDateOf nowMs query as
                 display := "block" }, [])
            else
              ({ innerHTML := searchNoResultsHtml query, display := "block" }, [])
        | none =>
            ({ innerHTML := searchNoResultsHtml query, display := "block" }, [])

/-! ## Fetch-now handler (main.js lines 249-281) -/

/-- Outcome of the fetch-now POST, polymorphic in the parsed JSON payload:
`netError` is a rejected `fetch`; `ok parsed` is an HTTP response, where
`parsed = none` means `response.json()` rejected (body not valid JSON) and
`parsed = some v` is the parsed value (which the handler never reads). -/
inductive FetchOutcome (α : Type) where
  | netError
  | ok (parsed : Option α)
deriving DecidableEq, Repr

/-- The busy label set at the top of the fetch-now handler (line 251). -/
def fetchBusyLabel : String := "<i class=\"fas fa-spinner fa-spin\"></i> Fetching..."

/-- Embedding of the fetch-now click handler as its effect sequence.
`originalText` is the button's `innerHTML` saved on entry. A rejected
`fetch` and a rejected `response.json()` both land in the `catch` branch;
the success notification and the 30-second countdown only run when the
body parsed. -/
def fetchNowHandler {α : Type} (originalText : String) : FetchOutcome α → List UiEffect
  | .ok (some _) =>
      [.setLabel fetchBusyLabel, .setDisabled true, .postFetchNow,
       .notify "Started fetching latest news! This may take a moment." "success",
       .startCountdown 30]
  | .ok none =>
      [.setLabel fetchBusyLabel, .setDisabled true, .postFetchNow,
       .logError "Fetch error:", .setLabel originalText, .setDisabled false,
       .notify "Error starting news fetch. Please try again." "error"]
  | .netError =>
      [.setLabel fetchBusyLabel, .setDisabled true, .postFetchNow,
       .logError "Fetch error:", .setLabel originalText, .setDisabled false,
       .notify "Error starting news fetch. Please try again." "error"]

/-! ## Notifications (main.js lines 410-437) -/

/-- A `.notification` element: the fields `showNotification` assigns. -/
structure NotificationElement where
  className : String
  innerHTML : String
deriving DecidableEq, Repr

/-- The banner created by `showNotification` (lines 416-426). -/
def mkNotificationElement (message ntype : String) : NotificationElement :=
  { className := "notification " ++ ntype
    innerHTML :=
      "<div class=\"notification-content\"><i class=\"fas fa-"
      ++ (if ntype = "success" then "check-circle" else "exclamation-circle")
      ++ "\"></i><span>"
      ++ message
      ++ "</span></div><button class=\"notification-close\" onclick=\"this.parentElement.remove()\"><i class=\"fas fa-times\"></i></button>" }

/-- Embedding of `showNotification` acting on the document's list of
`.notification` elements: every existing one is removed (lines 412-413),
then the new banner is appended to the body (line 429). -/
def showNotification (notifs : List NotificationElement) (message ntype : String) :
    List NotificationElement :=
  let afterRemoval : List NotificationElement := []
  afterRemoval ++ [mkNotificationElement message ntype]

/-! ## Language filter (main.js lines 16-89) -/

/-- An `.article-card` element: its `data-language` attribute and the style
fields the filter writes. -/
structure ArticleCardEl where
  language : String
  display : String
  opacity : String
  transform : String
deriving DecidableEq, Repr

/-- Final state of one card after either filter handler ran on it and all
its timers fired: the matching branch sets `display:block` at once and
`opacity`/`transform` 10ms later; the non-matching branch fades out at once
and sets `display:none` after the 300ms delay (lines 25-41 and the verbatim
duplicate 67-83). -/
def filterCard (selectedLanguage : String) (card : ArticleCardEl) : ArticleCardEl :=
  if selectedLanguage = "all" ∨ card.language = selectedLanguage then
    { card with display := "block", opacity := "1", transform := "translateY(0)" }
  else
    { card with opacity := "0", transform := "translateY(20px)", display := "none" }

/-- The article list portion of the DOM. `snapshotCards` are the cards the
static NodeList `document.querySelectorAll('.article-card')` captured at
`DOMContentLoaded` (line 18); `appendedCards` are cards appended to
`.articles-grid` afterwards by the load-more handler (lines 306-309), which
are in the document but not in that NodeList. -/
structure ArticleListDom where
  snapshotCards : List ArticleCardEl
  appendedCards : List ArticleCardEl
deriving DecidableEq, Repr

/-- All article cards present in the document. -/
def ArticleListDom.cards (d : ArticleListDom) : List ArticleCardEl :=
  d.snapshotCards ++ d.appendedCards

/-- Effect of one language selection (dropdown change or button click) on
the article cards: both handlers iterate `articleCards.forEach` over the
captured NodeList only. -/
def applyLanguageSelection (selectedLanguage : String) (d : ArticleListDom) :
    ArticleListDom :=
  { d with snapshotCards := d.snapshotCards.map (filterCard selectedLanguage) }

/-! ## URL query parameters and history (main.js lines 43-50) -/

/-- `URLSearchParams.delete`: removes every entry with the given name. -/
def paramsDelete : List (String × String) → String → List (String × String)
  | [], _ => []
  | (k0, v0) :: rest, k =>
      if k0 = k then paramsDelete rest k else (k0, v0) :: paramsDelete rest k

/-- `URLSearchParams.set`: replaces the first entry with the given name in
place (dropping any later duplicates), or appends when absent. -/
def paramsSet : List (String × String) → String → String → List (String × String)
  | [], k, v => [(k, v)]
  | (k0, v0) :: rest, k, v =>
      if k0 = k then (k, v) :: paramsDelete rest k
      else (k0, v0) :: paramsSet rest k v

/-- `URLSearchParams.get`: value of the first entry with the given name. -/
def paramsGet (ps : List (String × String)) (k : String) : Option String :=
  (ps.find? (fun p => p.1 == k)).map (fun p => p.2)

/-- The `language` parameter rewrite of the dropdown handler (lines 45-49):
`all` deletes the parameter, anything else sets it. -/
def languageUrlUpdate (selectedLanguage : String) (ps : List (String × String)) :
    List (String × String) :=
  if selectedLanguage = "all" then paramsDelete ps "language"
  else paramsSet ps "language" selectedLanguage

/-- Browser history: the stack of earlier entries and the current URL's
query parameters. -/
structure BrowserHistory where
  past : List (List (String × String))
  current : List (String × String)
deriving DecidableEq, Repr

/-- `window.history.pushState({}, '', url)`: adds a new entry with the
given URL without reloading the page. -/
def pushState (h : BrowserHistory) (u : List (String × String)) : BrowserHistory :=
  { past := h.past ++ [h.current], current := u }

/-- URL/history effect of a dropdown language selection (lines 43-50):
rewrite the `language` parameter of the current URL and `pushState` it. -/
def dropdownSelect (selectedLanguage : String) (h : BrowserHistory) : BrowserHistory :=
  pushState h (languageUrlUpdate selectedLanguage h.current)

/-- URL/history effect of a language-button click: the button handler
(lines 55-88) filters cards, toggles the `active` class and updates the
count label, but contains no URL or history code, so the history is left
unchanged. -/
def buttonSelect (selectedLanguage : String) (h : BrowserHistory) : BrowserHistory := h

/-! ## JS parseInt and the load-more handler (main.js lines 287-333) -/

/-- Numeric value of a decimal digit run. -/
def decValue (ds : List Char) : Nat :=
  ds.foldl (fun acc c => acc * 10 + (c.toNat - 48)) 0

/-- Whether a character is a hexadecimal digit. -/
def isHexDigit (c : Char) : Bool :=
  c.isDigit || ('a' ≤ c && c ≤ 'f') || ('A' ≤ c && c ≤ 'F')

/-- Numeric value of a hexadecimal digit. -/
def hexDigitValue (c : Char) : Nat :=
  if c.isDigit then c.toNat - 48
  else if 'a' ≤ c && c ≤ 'f' then c.toNat - 87
  else c.toNat - 55

/-- Numeric value of a hexadecimal digit run. -/
def hexValue (ds : List Char) : Nat :=
  ds.foldl (fun acc c => acc * 16 + hexDigitValue c) 0

/-- Magnitude part of JS `parseInt` (radix unspecified): a `0x`/`0X` prefix
switches to hexadecimal; the longest leading digit run is taken, trailing
junk ignored; no digits means `NaN` (`none`). -/
def jsParseIntMagnitude (cs : List Char) : Option Nat :=
  match cs with
  | '0' :: 'x' :: rest =>
      let ds := rest.takeWhile isHexDigit
      if ds.isEmpty then none else some (hexValue ds)
  | '0' :: 'X' :: rest =>
      let ds := rest.takeWhile isHexDigit
      if ds.isEmpty then none else some (hexValue ds)
  | _ =>
      let ds := cs.takeWhile (fun c => c.isDigit)
      if ds.isEmpty then none else some (decValue ds)

/-- JS `parseInt(s)` with radix unspecified: skip leading whitespace, an
optional sign, then the magnitude; `none` is `NaN`. -/
def jsParseInt (s : String) : Option Int :=
  let cs := s.data.dropWhile (fun c => c.isWhitespace)
  match cs with
  | '-' :: rest => (jsParseIntMagnitude rest).map (fun n => -(n : Int))
  | '+' :: rest => (jsParseIntMagnitude rest).map (fun n => (n : Int))
  | _ => (jsParseIntMagnitude cs).map (fun n => (n : Int))

/-- The current page computed at line 295: `parseInt(urlParams.get('page'))
|| 1`. `none` for the parameter models `urlParams.get` returning `null`
(`parseInt(null)` is `NaN`); `|| 1` replaces both `NaN` and `0` (falsy)
with `1`. -/
def loadMoreCurrentPage (pageParam : Option String) : Int :=
  match pageParam with
  | none => 1
  | some s =>
      match jsParseInt s with
      | none => 1
      | some n => if n = 0 then 1 else n

/-- The page number the load-more click requests (line 296 increments, line
299 requests it). -/
def loadMoreRequestedPage (pageParam : Option String) : Int :=
  loadMoreCurrentPage pageParam + 1

/-- Whether the load-more control's `display` is `none` after a successful
response: the `data.articles && data.articles.length > 0` branch hides it
when fewer than 20 items came back (lines 316-318), the `else` branch
(empty or absent list) always hides it (lines 319-321). -/
def loadMoreHiddenAfter (articles : Option (List Article)) : Bool :=
  match articles with
  | some as => if 0 < as.length then decide (as.length < 20) else true
  | none => true

/-! ## Concrete inputs used by witnesses and counterexamples -/

/-- A sample article used to instantiate universally quantified theorems. -/
def sampleArticle : Article :=
  { id := "1", title := "Kigali update", description := none, source := "RBA"
    category_name := "News", language := "en", published_at := 0, url_to_image := none }

/-- A sample article whose language is neither `en` nor `rw`. -/
def sampleFrArticle : Article := { sampleArticle with language := "fr" }

/-- A sample article in Kinyarwanda. -/
def sampleRwArticle : Article := { sampleArticle with language := "rw", id := "2" }

/-- A card appended by load-more after initialization: in the document with
`display:block`, but absent from the NodeList the filter iterates. -/
def staleCard : ArticleCardEl :=
  { language := "rw", display := "block", opacity := "1", transform := "translateY(0)" }

/-- A DOM where one Kinyarwanda card was appended after initialization. -/
def staleDom : ArticleListDom := { snapshotCards := [], appendedCards := [staleCard] }

/-- A history whose current URL carries `?language=rw`. -/
def sampleHistory : BrowserHistory := { past := [], current := [("language", "rw")] }

/-- A sample search-results container state. -/
def sampleBox : SearchResultsBox := { innerHTML := "old", display := "none" }

/-! ## Helper lemmas -/

theorem strContains_self (s : String) : strContains s s = true := by
  simp [strContains]

theorem strContains_append_left (a b n : String) (h : strContains a n = true) :
    strContains (a ++ b) n = true := by
  simp only [strContains, decide_eq_true_eq, String.data_append] at *
  exact h.trans (List.prefix_append _ _).isInfix

theorem strContains_append_right (a b n : String) (h : strContains b n = true) :
    strContains (a ++ b) n = true := by
  simp only [strContains, decide_eq_true_eq, String.data_append] at *
  exact h.trans (List.suffix_append _ _).isInfix

theorem renderSearchItem_contains_title (L : Int → String) (nowMs : Int) (a : Article) :
    strContains (renderSearchItem L nowMs a) a.title = true := by
  unfold renderSearchItem
  repeat first
    | exact strContains_append_right _ _ _ (strContains_self _)
    | apply strContains_append_left

theorem renderSearchItem_contains_badge (L : Int → String) (nowMs : Int) (a : Article) :
    strContains (renderSearchItem L nowMs a) (searchLanguageBadge a) = true := by
  unfold renderSearchItem
  repeat first
    | exact strContains_append_right _ _ _ (strContains_self _)
    | apply strContains_append_left

theorem searchNoResultsHtml_contains_query (q : String) :
    strContains (searchNoResultsHtml q) q = true := by
  unfold searchNoResultsHtml
  repeat first
    | exact strContains_append_right _ _ _ (strContains_self _)
    | apply strContains_append_left

/-! ## Claim theorems -/

/-- C5: for every past timestamp, `formatTimeAgo` returns `just now` below
60 elapsed whole seconds, `{m}m ago` with `m` the floor of seconds/60 while
`m < 60`, `{h}h ago` with `h` the floor of minutes/60 while `h < 24`,
`{d}d ago` with `d` the floor of hours/24 while `d < 7`, and the
locale-formatted calendar date otherwise. -/
theorem formatTimeAgo_thresholds (L : Int → String) (nowMs dateMs : Int)
    (hpast : dateMs ≤ nowMs) :
    ((nowMs - dateMs).fdiv 1000 < 60 → formatTimeAgo L nowMs dateMs = "just now") ∧
    (60 ≤ (nowMs - dateMs).fdiv 1000 → ((nowMs - dateMs).fdiv 1000).fdiv 60 < 60 →
      formatTimeAgo L nowMs dateMs =
        toString (((nowMs - dateMs).fdiv 1000).fdiv 60) ++ "m ago") ∧
    (60 ≤ ((nowMs - dateMs).fdiv 1000).fdiv 60 →
      (((nowMs - dateMs).fdiv 1000).fdiv 60).fdiv 60 < 24 →
      formatTimeAgo L nowMs dateMs =
        toString ((((nowMs - dateMs).fdiv 1000).fdiv 60).fdiv 60) ++ "h ago") ∧
    (24 ≤ (((nowMs - dateMs).fdiv 1000).fdiv 60).fdiv 60 →
      ((((nowMs - dateMs).fdiv 1000).fdiv 60).fdiv 60).fdiv 24 < 7 →
      formatTimeAgo L nowMs dateMs =
        toString (((((nowMs - dateMs).fdiv 1000).fdiv 60).fdiv 60).fdiv 24) ++ "d ago") ∧
    (7 ≤ ((((nowMs - dateMs).fdiv 1000).fdiv 60).fdiv 60).fdiv 24 →
      formatTimeAgo L nowMs dateMs = L dateMs) := by
  have e1000 : ∀ x : Int, x.fdiv 1000 = x / 1000 := fun x => Int.fdiv_eq_ediv x (by norm_num)
  have e60 : ∀ x : Int, x.fdiv 60 = x / 60 := fun x => Int.fdiv_eq_ediv x (by norm_num)
  have e24 : ∀ x : Int, x.fdiv 24 = x / 24 := fun x => Int.fdiv_eq_ediv x (by norm_num)
  unfold formatTimeAgo
  simp only [e1000, e60, e24]
  refine ⟨fun h1 => ?_, fun h1 h2 => ?_, fun h2 h3 => ?_, fun h3 h4 => ?_, fun h4 => ?_⟩
  · rw [if_pos h1]
  · rw [if_neg (by omega), if_pos h2]
  · rw [if_neg (by omega), if_neg (by omega), if_pos h3]
  · rw [if_neg (by omega), if_neg (by omega), if_neg (by omega), if_pos h4]
  · rw [if_neg (by omega), if_neg (by omega), if_neg (by omega), if_neg (by omega)]

/-- Witness for C5: 45 seconds in the past gives `just now`, 90 seconds
gives `1m ago`, 25 hours gives `1d ago`. -/
theorem formatTimeAgo_thresholds_witness :
    formatTimeAgo (fun _ => "") 45000 0 = "just now" ∧
    formatTimeAgo (fun _ => "") 90000 0 = "1m ago" ∧
    formatTimeAgo (fun _ => "") 90000000 0 = "1d ago" := by
  refine ⟨?_, ?_, ?_⟩
  · exact (formatTimeAgo_thresholds (fun _ => "") 45000 0 (by decide)).1 (by decide)
  · exact (formatTimeAgo_thresholds (fun _ => "") 90000 0 (by decide)).2.1 (by decide) (by decide)
  · exact (formatTimeAgo_thresholds (fun _ => "") 90000000 0 (by decide)).2.2.2.1 (by decide) (by decide)

/-- C8: `showNotification` leaves exactly one notification element in the
document, because it first removes all existing ones; in particular two
calls in succession still leave exactly one. -/
theorem showNotification_exactly_one (notifs : List NotificationElement)
    (m1 t1 m2 t2 : String) :
    (showNotification notifs m1 t1).length = 1 ∧
    (showNotification (showNotification notifs m1 t1) m2 t2).length = 1 :=
  ⟨rfl, rfl⟩

theorem paramsGet_delete (ps : List (String × String)) (k : String) :
    paramsGet (paramsDelete ps k) k = none := by
  induction ps with
  | nil => rfl
  | cons p rest ih =>
      obtain ⟨k0, v0⟩ := p
      by_cases h : k0 = k
      · simp [paramsDelete, h, ih]
      · simp [paramsDelete, paramsGet, List.find?, h, Ne.symm h] at *
        exact ih

theorem paramsGet_set (ps : List (String × String)) (k v : String) :
    paramsGet (paramsSet ps k v) k = some v := by
  induction ps with
  | nil => simp [paramsSet, paramsGet, List.find?]
  | cons p rest ih =>
      obtain ⟨k0, v0⟩ := p
      by_cases h : k0 = k
      · simp [paramsSet, paramsGet, List.find?, h]
      · simp [paramsSet, paramsGet, List.find?, h] at *
        exact ih

/-- C1 counterexample: a Kinyarwanda card appended by load-more after
initialization is in the document when the selection `en` is made, yet the
filter leaves it visible (`display` stays `block`), because both handlers
iterate only the NodeList captured at `DOMContentLoaded`. -/
theorem languageFilter_misses_appended_card :
    (applyLanguageSelection "en" staleDom).cards = [staleCard] ∧
    staleCard.display = "block" ∧
    staleCard.language = "rw" ∧
    ("en" : String) ≠ "all" ∧
    ("rw" : String) ≠ "en" := by
  refine ⟨rfl, rfl, rfl, by decide, by decide⟩

/-- C1 amended: for every article card captured by the NodeList at page
initialization, a selection `s` (dropdown change or button click, whose
filtering bodies are identical) leaves the card visible exactly when `s`
is `all` or the card's `data-language` equals `s`; otherwise, once the
300ms hide timer fires, its `display` is `none`. Cards appended to the DOM
after initialization are not filtered. -/
theorem languageFilter_snapshot_visibility (s : String) (d : ArticleListDom) :
    (applyLanguageSelection s d).snapshotCards = d.snapshotCards.map (filterCard s) ∧
    (applyLanguageSelection s d).appendedCards = d.appendedCards ∧
    ∀ c : ArticleCardEl,
      ((filterCard s c).display ≠ "none" ↔ (s = "all" ∨ c.language = s)) ∧
      (filterCard s c).display = (if s = "all" ∨ c.language = s then "block" else "none") ∧
      (filterCard s c).language = c.language := by
  refine ⟨rfl, rfl, fun c => ?_⟩
  by_cases h : s = "all" ∨ c.language = s
  · simp [filterCard, h]
  · simp [filterCard, h]

/-- C3 counterexample: with current URL `?language=rw`, a language-button
selection of `en` is a language filter selection but leaves the URL's
`language` parameter at `rw` (the button handler has no URL code); and the
dropdown path grows the history by a new entry (`pushState`), rather than
replacing the current one. -/
theorem languageFilter_url_counterexample :
    buttonSelect "en" sampleHistory = sampleHistory ∧
    paramsGet (buttonSelect "en" sampleHistory).current "language" = some "rw" ∧
    ("rw" : String) ≠ "en" ∧
    (dropdownSelect "en" sampleHistory).past.length = sampleHistory.past.length + 1 := by
  refine ⟨rfl, rfl, by decide, rfl⟩

/-- C3 amended: after every dropdown language filter selection the URL's
`language` query parameter is rewritten through `history.pushState` (a new
history entry, no page reload): selecting `all` removes the parameter and
selecting a specific code sets it to that code. Language-button selections
leave the URL and history unchanged. -/
theorem dropdownSelect_url_rewrite (sel : String) (h : BrowserHistory) :
    paramsGet (dropdownSelect sel h).current "language" =
      (if sel = "all" then none else some sel) ∧
    (dropdownSelect sel h).past = h.past ++ [h.current] ∧
    (∀ s : String, buttonSelect s h = h) := by
  refine ⟨?_, rfl, fun s => rfl⟩
  by_cases hs : sel = "all"
  · simp [dropdownSelect, pushState, languageUrlUpdate, hs, paramsGet_delete]
  · simp [dropdownSelect, pushState, languageUrlUpdate, hs, paramsGet_set]

/-- C2 counterexample: with current URL `?page=0` the parameter parses as
the integer `0`, so the claim says the click requests page `0 + 1 = 1`;
but `parseInt('0') || 1` treats `0` as falsy and the code requests page 2. -/
theorem loadMore_page_zero_counterexample :
    jsParseInt "0" = some 0 ∧
    loadMoreRequestedPage (some "0") = 2 ∧
    (0 : Int) + 1 ≠ 2 := by
  refine ⟨by decide, rfl, by decide⟩

/-- C2 amended: the requested page is `n + 1` when the URL's `page`
parameter parses (JS `parseInt`) to a nonzero integer `n`, and `2`
otherwise (parameter absent, unparseable, or parsing to the falsy `0`,
since `parseInt(...) || 1` defaults the current page to 1 in those cases);
after a successful response the control is hidden exactly when fewer than
20 articles were returned. In particular `?page=2` requests page 3, 20
items keep the control visible, and 5 or 0 items hide it. -/
theorem loadMore_pagination (p : Option String) (n : Int) (arts : List Article) :
    (p.bind jsParseInt = some n → n ≠ 0 → loadMoreRequestedPage p = n + 1) ∧
    (p.bind jsParseInt = none → loadMoreRequestedPage p = 2) ∧
    (p.bind jsParseInt = some 0 → loadMoreRequestedPage p = 2) ∧
    loadMoreHiddenAfter (some arts) = decide (arts.length < 20) ∧
    loadMoreHiddenAfter none = true := by
  refine ⟨?_, ?_, ?_, ?_, rfl⟩
  · intro hp hn
    cases p with
    | none => simp at hp
    | some s =>
        have hp' : jsParseInt s = some n := hp
        simp [loadMoreRequestedPage, loadMoreCurrentPage, hp', hn]
  · intro hp
    cases p with
    | none => rfl
    | some s =>
        have hp' : jsParseInt s = none := hp
        simp [loadMoreRequestedPage, loadMoreCurrentPage, hp']
  · intro hp
    cases p with
    | none => simp at hp
    | some s =>
        have hp' : jsParseInt s = some 0 := hp
        simp [loadMoreRequestedPage, loadMoreCurrentPage, hp']
  · unfold loadMoreHiddenAfter
    by_cases h : 0 < arts.length
    · simp [h]
    · have h0 : arts.length = 0 := by omega
      simp [h, h0]

/-- Witness for C2: `?page=2` requests page 3; a response of 20 articles
keeps the control visible, one of 5 articles hides it. -/
theorem loadMore_pagination_witness :
    ((some "2" : Option String).bind jsParseInt = some 2 ∧ (2 : Int) ≠ 0 ∧
      loadMoreRequestedPage (some "2") = 3) ∧
    loadMoreHiddenAfter (some (List.replicate 20 sampleArticle)) = false ∧
    loadMoreHiddenAfter (some (List.replicate 5 sampleArticle)) = true := by
  refine ⟨⟨by decide, by decide, ?_⟩, ?_, ?_⟩
  · exact (loadMore_pagination (some "2") 2 []).1 (by decide) (by decide)
  · have h := (loadMore_pagination (some "2") 2 (List.replicate 20 sampleArticle)).2.2.2.1
    simpa using h
  · have h := (loadMore_pagination (some "2") 2 (List.replicate 5 sampleArticle)).2.2.2.1
    simpa using h

/-- C9: when the search round trip fails (network or JSON-parse error) on a
submission with a non-empty trimmed query, the handler logs the error and
shows a transient error notification, and the results container is
returned exactly as it was before the submission. -/
theorem search_failure_frame (L : Int → String) (nowMs : Int) (box : SearchResultsBox)
    (rawQuery : String) (h : (jsTrim rawQuery).isEmpty = false) :
    searchSubmitHandler L nowMs box rawQuery .failure =
      (box, [.logError "Search error:",
             .notify "Error performing search. Please try again." "error"]) := by
  simp [searchSubmitHandler, h]

/-- Witness for C9: a failing search for `rwanda` leaves a concrete
container state untouched and emits the log and the error notification. -/
theorem search_failure_frame_witness :
    ((jsTrim "rwanda").isEmpty = false) ∧
    searchSubmitHandler (fun _ => "") 0 sampleBox "rwanda" .failure =
      (sampleBox, [.logError "Search error:",
                   .notify "Error performing search. Please try again." "error"]) :=
  ⟨rfl, search_failure_frame (fun _ => "") 0 sampleBox "rwanda" rfl⟩

/-- C4: for every search submission with a non-empty trimmed query, an
empty `articles` list renders the no-results placeholder containing the
literal query text, and a list of `n ≥ 1` articles renders the heading
followed by exactly `n` result fragments, one per article, each containing
that article's title and either the `EN` or the `RW` badge; in both cases
the container's `display` becomes `block`. -/
theorem search_success_rendering (L : Int → String) (nowMs : Int) (box : SearchResultsBox)
    (rawQuery : String) (h : (jsTrim rawQuery).isEmpty = false) (arts : List Article) :
    ((searchSubmitHandler L nowMs box rawQuery (.success (some []))).1 =
      { innerHTML := searchNoResultsHtml (jsTrim rawQuery), display := "block" }) ∧
    strContains (searchNoResultsHtml (jsTrim rawQuery)) (jsTrim rawQuery) = true ∧
    (arts ≠ [] →
      (searchSubmitHandler L nowMs box rawQuery (.success (some arts))).1 =
        { innerHTML :=
            searchResultsHeader (jsTrim rawQuery) arts.length
              ++ String.join (arts.map (renderSearchItem L nowMs))
          display := "block" } ∧
      (arts.map (renderSearchItem L nowMs)).length = arts.length ∧
      ∀ a ∈ arts,
        strContains (renderSearchItem L nowMs a) a.title = true ∧
        (strContains (renderSearchItem L nowMs a) "<span class=\"language-en\">EN</span>" = true ∨
         strContains (renderSearchItem L nowMs a) "<span class=\"language-rw\">RW</span>" = true)) := by
  refine ⟨?_, searchNoResultsHtml_contains_query _, fun hne => ⟨?_, by simp, fun a _ => ?_⟩⟩
  · simp [searchSubmitHandler, h]
  · have hlen : 0 < arts.length := List.length_pos.mpr hne
    simp [searchSubmitHandler, h, hlen, searchSuccessHtml]
  · refine ⟨renderSearchItem_contains_title L nowMs a, ?_⟩
    have hb := renderSearchItem_contains_badge L nowMs a
    by_cases hl : a.language = "en"
    · left
      simpa [searchLanguageBadge, hl] using hb
    · right
      simpa [searchLanguageBadge, hl] using hb

/-- Witness for C4: a search for `rwanda` with an empty response renders
the no-results message containing `rwanda`; one with three articles
renders three fragments, and the container is shown. -/
theorem search_success_rendering_witness :
    ((jsTrim "rwanda").isEmpty = false) ∧
    (searchSubmitHandler (fun _ => "") 0 sampleBox "rwanda" (.success (some []))).1 =
      { innerHTML := searchNoResultsHtml "rwanda", display := "block" } ∧
    strContains (searchNoResultsHtml "rwanda") "rwanda" = true ∧
    ([sampleArticle, sampleRwArticle, sampleFrArticle].map
        (renderSearchItem (fun _ => "") 0)).length = 3 ∧
    (searchSubmitHandler (fun _ => "") 0 sampleBox "rwanda"
        (.success (some [sampleArticle, sampleRwArticle, sampleFrArticle]))).1.display =
      "block" := by
  have h := search_success_rendering (fun _ => "") 0 sampleBox "rwanda" rfl
    [sampleArticle, sampleRwArticle, sampleFrArticle]
  have h3 := h.2.2 (by decide)
  exact ⟨rfl, h.1, h.2.1, h3.2.1, by rw [h3.1]⟩

set_option maxRecDepth 8192 in
/-- C6 counterexample: `createArticleCard` reads the current time through
`formatTimeAgo(article.published_at)`, so two invocations on the same
article 30 seconds versus 90 seconds after publication produce different
fragments (`just now` versus `1m ago` in the time slot). -/
theorem createArticleCard_time_dependent :
    createArticleCard (fun _ => "") 30000 sampleArticle ≠
      createArticleCard (fun _ => "") 90000 sampleArticle := by
  decide

/-- C6 amended: `createArticleCard` is a pure, deterministic function of
the article data and the current time: its only time dependence is the
relative-time label, so any two invocations at times rendering the same
`formatTimeAgo` label for the article's timestamp produce identical
fragments. -/
theorem createArticleCard_deterministic (L : Int → String) (a : Article) (t1 t2 : Int)
    (h : formatTimeAgo L t1 a.published_at = formatTimeAgo L t2 a.published_at) :
    createArticleCard L t1 a = createArticleCard L t2 a := by
  simp [createArticleCard, articleCardHtml, h]

/-- Witness for C6: one and two seconds after publication the labels agree
(`just now`), and the constructed cards coincide. -/
theorem createArticleCard_deterministic_witness :
    formatTimeAgo (fun _ => "") 1000 sampleArticle.published_at =
      formatTimeAgo (fun _ => "") 2000 sampleArticle.published_at ∧
    createArticleCard (fun _ => "") 1000 sampleArticle =
      createArticleCard (fun _ => "") 2000 sampleArticle :=
  ⟨by decide, createArticleCard_deterministic (fun _ => "") sampleArticle 1000 2000 (by decide)⟩

/-- C7 counterexample: a fetch-now click whose POST succeeds but whose
response body is not valid JSON (`response.json()` rejects before the
notification line runs) takes the catch path: no success notification, no
countdown, but an error notification — contradicting `a success
notification is shown regardless of the response content`. -/
theorem fetchNow_nonjson_counterexample :
    UiEffect.notify "Started fetching latest news! This may take a moment." "success" ∉
      fetchNowHandler "orig" (FetchOutcome.ok (none : Option String)) ∧
    UiEffect.startCountdown 30 ∉
      fetchNowHandler "orig" (FetchOutcome.ok (none : Option String)) ∧
    UiEffect.notify "Error starting news fetch. Please try again." "error" ∈
      fetchNowHandler "orig" (FetchOutcome.ok (none : Option String)) := by
  refine ⟨by decide, by decide, by decide⟩

/-- C7 amended: for every fetch-now click whose POST succeeds and whose
response body parses as JSON, a success notification is shown regardless
of the parsed content (the effect list does not depend on the parsed
value), and only then does the 30-second countdown toward a page reload
start (the notification strictly precedes the countdown effect); the
parsed value is not otherwise used. -/
theorem fetchNow_success_effects {α : Type} (originalText : String) (v w : α) :
    fetchNowHandler originalText (.ok (some v)) =
      [.setLabel fetchBusyLabel, .setDisabled true, .postFetchNow,
       .notify "Started fetching latest news! This may take a moment." "success",
       .startCountdown 30] ∧
    fetchNowHandler originalText (.ok (some v)) =
      fetchNowHandler originalText (.ok (some w)) ∧
    ((fetchNowHandler originalText (.ok (some v))).indexOf
        (.notify "Started fetching latest news! This may take a moment." "success") <
      (fetchNowHandler originalText (.ok (some v))).indexOf (.startCountdown 30)) := by
  refine ⟨rfl, rfl, ?_⟩
  have e : fetchNowHandler originalText (.ok (some v)) =
      [.setLabel fetchBusyLabel, .setDisabled true, .postFetchNow,
       .notify "Started fetching latest news! This may take a moment." "success",
       .startCountdown 30] := rfl
  rw [e]
  decide

set_option maxRecDepth 8192 in
/-- C10: both renderers treat every language other than exactly `en` as
Kinyarwanda: a non-`en` article gets the `RW` badge in search results, and
the `Kinyarwanda` badge together with the `language-rw-indicator` class in
its article card. -/
theorem nonEnglish_renders_rw (L : Int → String) (nowMs : Int) (a : Article)
    (h : a.language ≠ "en") :
    strContains (renderSearchItem L nowMs a) "<span class=\"language-rw\">RW</span>" = true ∧
    strContains (createArticleCard L nowMs a).innerHTML
      "<span class=\"language-rw\">Kinyarwanda</span>" = true ∧
    strContains (createArticleCard L nowMs a).innerHTML "language-rw-indicator" = true := by
  refine ⟨?_, ?_, ?_⟩
  · have hb := renderSearchItem_contains_badge L nowMs a
    simpa [searchLanguageBadge, h] using hb
  · show strContains (articleCardHtml L nowMs a) _ = true
    simp only [articleCardHtml, if_neg h]
    repeat first
      | exact strContains_append_right _ _ _ (strContains_self _)
      | apply strContains_append_left
  · show strContains (articleCardHtml L nowMs a) _ = true
    simp only [articleCardHtml, if_neg h]
    repeat first
      | exact strContains_append_right _ _ _ (strContains_self _)
      | apply strContains_append_left

/-- Witness for C10: an article whose language field is `fr` (outside the
declared enum) renders with the `RW` badge, the `Kinyarwanda` badge and
the `language-rw-indicator` class. -/
theorem nonEnglish_renders_rw_witness :
    sampleFrArticle.language ≠ "en" ∧
    (strContains (renderSearchItem (fun _ => "") 0 sampleFrArticle)
        "<span class=\"language-rw\">RW</span>" = true ∧
      strContains (createArticleCard (fun _ => "") 0 sampleFrArticle).innerHTML
        "<span class=\"language-rw\">Kinyarwanda</span>" = true ∧
      strContains (createArticleCard (fun _ => "") 0 sampleFrArticle).innerHTML
        "language-rw-indicator" = true) :=
  ⟨by decide, nonEnglish_renders_rw (fun _ => "") 0 sampleFrArticle (by decide)⟩

end GlobeNews
